import Mathlib

/-!
Verification of the linear-programming lab `task.py`: a production-mix
maximization (Task 1) and a balanced transportation minimization (Task 2),
each solved by an external LP solver and rendered as a chart.

All numerics are embedded over `ℚ`; the source's floating tolerance `1e-6`
becomes the exact rational `1 / 1000000`.
-/

namespace ProgLab

/-- Dot product of two coefficient lists, zero-padded on length mismatch. -/
def dot : List ℚ → List ℚ → ℚ
  | a :: as, b :: bs => a * b + dot as bs
  | _, _ => 0

/-- Result object returned by the LP solver (`scipy.optimize.linprog`):
success flag, solution vector `x`, objective value (`result.fun` in the
source; `fun` is a Lean keyword so the field is `objVal`), and diagnostic
message. -/
structure SolverResult where
  success : Bool
  x : List ℚ
  objVal : ℚ
  message : String
deriving DecidableEq

/-- Modelled from the spec: `scipy.optimize.linprog` is an external
collaborator (spec section 6), assumed to be a correct black-box LP solver.
A result for objective vector `c` and feasible set `feas` is correct when,
on success, the returned vector is feasible, the reported objective value is
the objective evaluated at the returned vector, and no feasible vector
attains a smaller objective. -/
def CorrectFor (c : List ℚ) (feas : List ℚ → Prop) (r : SolverResult) : Prop :=
  r.success = true →
    feas r.x ∧ r.objVal = dot c r.x ∧ ∀ y, feas y → r.objVal ≤ dot c y

/-- Absolute tolerance used by both classification steps (`1e-6` in the source). -/
def tol : ℚ := 1 / 1000000

/-! ### Task 1: production-mix LP (source `solve_task1`, lines 38-50) -/

/-- Objective coefficients of Task 1 (`c = [-8000, -12000]`): the profit
vector negated to cast maximization as the solver's minimization. -/
def c_task1 : List ℚ := [-8000, -12000]

/-- Inequality constraint matrix of Task 1 (`A_ub`): CPU-time row and
accumulator row. -/
def A_ub : List (List ℚ) := [[2, 3], [1, 2]]

/-- Inequality right-hand sides of Task 1 (`b_ub`). -/
def b_ub : List ℚ := [240, 150]

/-- Feasibility for Task 1 as built by the source: two variables, bounds
`(0, None)` on each, and `A_ub @ x <= b_ub` row by row. -/
def feasible1 (x : List ℚ) : Prop :=
  x.length = 2 ∧ (∀ xi ∈ x, 0 ≤ xi) ∧
    List.Forall₂ (fun row bi => dot row x ≤ bi) A_ub b_ub

theorem feasible1_iff (x1 x2 : ℚ) :
    feasible1 [x1, x2] ↔
      0 ≤ x1 ∧ 0 ≤ x2 ∧ 2 * x1 + 3 * x2 ≤ 240 ∧ x1 + 2 * x2 ≤ 150 := by
  constructor
  · rintro ⟨-, hnn, hf⟩
    rcases hf with - | ⟨h1, hf⟩
    rcases hf with - | ⟨h2, -⟩
    simp only [dot] at h1 h2
    refine ⟨hnn x1 (by simp), hnn x2 (by simp), by linarith, by linarith⟩
  · rintro ⟨h1, h2, h3, h4⟩
    refine ⟨rfl, ?_, ?_⟩
    · intro xi hxi
      simp only [List.mem_cons, List.not_mem_nil, or_false] at hxi
      rcases hxi with rfl | rfl
      · exact h1
      · exact h2
    · refine List.Forall₂.cons ?_ (List.Forall₂.cons ?_ List.Forall₂.nil)
      · simp only [dot]; linarith
      · simp only [dot]; linarith

/-- Every Task-1-feasible point has profit at most 960000 (the objective
`(8000, 12000)` is `4000 * (2, 3)`, so the CPU row alone bounds it). -/
theorem task1_profit_bound (y1 y2 : ℚ) (h : feasible1 [y1, y2]) :
    8000 * y1 + 12000 * y2 ≤ 960000 := by
  rw [feasible1_iff] at h
  obtain ⟨-, -, hcpu, -⟩ := h
  linarith

/-- Modelled from the spec: the result the external solver returns on
Task 1's fixed inputs (spec section 8, property 1: `x1 = 30`, `x2 = 60`,
maximum profit `960000`, hence minimized objective `-960000`). -/
def linprog_task1_result : SolverResult :=
  { success := true, x := [30, 60], objVal := -960000, message := "" }

/-- The spec-modelled Task 1 solver result satisfies the solver-correctness
contract against the LP actually built by the source: `[30, 60]` is feasible,
`-960000` is its objective value, and no feasible point does better. -/
theorem linprog_task1_result_correct :
    CorrectFor c_task1 feasible1 linprog_task1_result := by
  intro _
  refine ⟨?_, ?_, ?_⟩
  · rw [show linprog_task1_result.x = [30, 60] from rfl, feasible1_iff]
    norm_num
  · simp [linprog_task1_result, c_task1, dot]
    norm_num
  · intro y hy
    have hlen := hy.1
    rw [List.length_eq_two] at hlen
    obtain ⟨y1, y2, rfl⟩ := hlen
    have := task1_profit_bound y1 y2 hy
    simp only [linprog_task1_result, c_task1, dot]
    linarith

/-! ### Task 1: report step (source lines 55-89) -/

/-- The textual report solve_task1 derives from a successful result
(lines 56-82): the two quantities, the recovered profit `-result.fun`,
the per-constraint resource usage, and the deficient-resource list. -/
structure Task1Report where
  x1 : ℚ
  x2 : ℚ
  profit : ℚ
  cpu_used : ℚ
  battery_used : ℚ
  deficient : List String
deriving DecidableEq

/-- The deficient-resource list (lines 77-81): a constraint is listed
exactly when its usage is within `1e-6` of its bound. -/
def mkDeficient (cpu_used battery_used : ℚ) : List String :=
  (if |cpu_used - 240| < tol then ["processor time"] else []) ++
    (if |battery_used - 150| < tol then ["batteries"] else [])

/-- The report computed from a successful solver result's components
(`x1, x2 = result.x`, `profit = -result.fun`, lines 56-82). -/
def task1Report (x1 x2 objVal : ℚ) : Task1Report :=
  { x1 := x1
    x2 := x2
    profit := -objVal
    cpu_used := 2 * x1 + 3 * x2
    battery_used := x1 + 2 * x2
    deficient := mkDeficient (2 * x1 + 3 * x2) (x1 + 2 * x2) }

/-- `solve_task1`'s return value (lines 86, 89): the solver result itself
on success, `None` on failure. -/
def solve_task1 (r : SolverResult) : Option SolverResult :=
  if r.success then some r else none

/-! ### Task 1: chart vertices (source `visualize_task1`, line 109) -/

/-- The hardcoded feasible-polygon vertices of `visualize_task1`. -/
def vertices : List (ℚ × ℚ) := [(0, 0), (0, 75), (30, 60), (120, 0)]

/-- Task 1 feasibility of a point of the plane. -/
def feasiblePt (p : ℚ × ℚ) : Prop := feasible1 [p.1, p.2]

/-- The four constraint boundary lines of Task 1's system: CPU time,
accumulators, and the two axes. -/
def boundaryHolds : Fin 4 → ℚ × ℚ → Prop
  | 0, p => 2 * p.1 + 3 * p.2 = 240
  | 1, p => p.1 + 2 * p.2 = 150
  | 2, p => p.1 = 0
  | 3, p => p.2 = 0

/-! ### Task 2: transportation LP (source `solve_task2`, lines 179-212) -/

/-- Total supply computed before solving (line 180). -/
def supply : ℚ := 150 + 250

/-- Total demand computed before solving (line 181). -/
def demand : ℚ := 120 + 180 + 100

/-- Objective coefficients of Task 2 (line 196): unit transport costs. -/
def c_task2 : List ℚ := [8, 6, 10, 9, 7, 5]

/-- Equality constraint matrix of Task 2 (`A_eq`, lines 199-205): one row
per warehouse, one row per base. -/
def A_eq : List (List ℚ) :=
  [[1, 1, 1, 0, 0, 0],
   [0, 0, 0, 1, 1, 1],
   [1, 0, 0, 1, 0, 0],
   [0, 1, 0, 0, 1, 0],
   [0, 0, 1, 0, 0, 1]]

/-- Equality right-hand sides of Task 2 (`b_eq`, line 206). -/
def b_eq : List ℚ := [150, 250, 120, 180, 100]

/-- Feasibility for Task 2 as built by the source: six variables, bounds
`(0, None)` on each, and `A_eq @ x = b_eq` row by row. -/
def feasible2 (x : List ℚ) : Prop :=
  x.length = 6 ∧ (∀ xi ∈ x, 0 ≤ xi) ∧
    List.Forall₂ (fun row bi => dot row x = bi) A_eq b_eq

/-- `solve_task2`'s return value (lines 261, 264): the solver result itself
on success, `None` on failure. -/
def solve_task2 (r : SolverResult) : Option SolverResult :=
  if r.success then some r else none

theorem feasible2_iff (a b c d e f : ℚ) :
    feasible2 [a, b, c, d, e, f] ↔
      (0 ≤ a ∧ 0 ≤ b ∧ 0 ≤ c ∧ 0 ≤ d ∧ 0 ≤ e ∧ 0 ≤ f) ∧
      a + b + c = 150 ∧ d + e + f = 250 ∧
      a + d = 120 ∧ b + e = 180 ∧ c + f = 100 := by
  constructor
  · rintro ⟨-, hnn, hf⟩
    rcases hf with - | ⟨h1, hf⟩
    rcases hf with - | ⟨h2, hf⟩
    rcases hf with - | ⟨h3, hf⟩
    rcases hf with - | ⟨h4, hf⟩
    rcases hf with - | ⟨h5, -⟩
    simp only [dot] at h1 h2 h3 h4 h5
    refine ⟨⟨?_, ?_, ?_, ?_, ?_, ?_⟩, by linarith, by linarith, by linarith,
      by linarith, by linarith⟩ <;>
      [exact hnn a (by simp); exact hnn b (by simp); exact hnn c (by simp);
       exact hnn d (by simp); exact hnn e (by simp); exact hnn f (by simp)]
  · rintro ⟨⟨ha, hb, hc, hd, he, hf⟩, h1, h2, h3, h4, h5⟩
    refine ⟨rfl, ?_, ?_⟩
    · intro xi hxi
      simp only [List.mem_cons, List.not_mem_nil, or_false] at hxi
      rcases hxi with rfl | rfl | rfl | rfl | rfl | rfl <;> assumption
    · refine List.Forall₂.cons ?_ (List.Forall₂.cons ?_ (List.Forall₂.cons ?_
        (List.Forall₂.cons ?_ (List.Forall₂.cons ?_ List.Forall₂.nil)))) <;>
        (simp only [dot]; linarith)

/-- Dual-certificate lower bound for Task 2: every feasible shipment plan
costs at least 2690 (dual prices 0 and 1 for the warehouses, 8, 6 and 4 for
the bases). -/
theorem task2_cost_bound (a b c d e f : ℚ) (h : feasible2 [a, b, c, d, e, f]) :
    2690 ≤ 8 * a + 6 * b + 10 * c + 9 * d + 7 * e + 5 * f := by
  rw [feasible2_iff] at h
  obtain ⟨⟨-, -, hc, -, -, -⟩, h1, h2, h3, h4, h5⟩ := h
  linarith

/-- A concrete optimal shipment plan for Task 2, used to certify the
contract: `x = (120, 30, 0, 0, 150, 100)` with cost 2690. -/
def optimal_task2_result : SolverResult :=
  { success := true, x := [120, 30, 0, 0, 150, 100], objVal := 2690, message := "" }

/-- `optimal_task2_result` satisfies the solver-correctness contract for the
LP built by `solve_task2`. -/
theorem optimal_task2_result_correct :
    CorrectFor c_task2 feasible2 optimal_task2_result := by
  intro _
  refine ⟨?_, ?_, ?_⟩
  · rw [show optimal_task2_result.x = [120, 30, 0, 0, 150, 100] from rfl,
      feasible2_iff]
    norm_num
  · simp [optimal_task2_result, c_task2, dot]
    norm_num
  · intro y hy
    have hlen := hy.1
    rcases y with - | ⟨a, - | ⟨b, - | ⟨c, - | ⟨d, - | ⟨e, - | ⟨f, - | ⟨g, t⟩⟩⟩⟩⟩⟩⟩ <;>
      simp only [List.length] at hlen <;> try omega
    have := task2_cost_bound a b c d e f hy
    simp only [optimal_task2_result, c_task2, dot]
    linarith

/-! ### Task 2: route classification (source lines 240-257) -/

/-- One entry of the `routes` list (name, shipped quantity, unit cost). -/
structure Route where
  name : String
  qty : ℚ
  cost : ℚ
deriving DecidableEq

/-- The `routes` list built from an unpacked solution (lines 240-247). -/
def routes (x11 x12 x13 x21 x22 x23 : ℚ) : List Route :=
  [⟨"W1 -> Alpha", x11, 8⟩,
   ⟨"W1 -> Beta", x12, 6⟩,
   ⟨"W1 -> Gamma", x13, 10⟩,
   ⟨"W2 -> Alpha", x21, 9⟩,
   ⟨"W2 -> Beta", x22, 7⟩,
   ⟨"W2 -> Gamma", x23, 5⟩]

/-- Routes printed as used (lines 250-252): quantity strictly above `1e-6`. -/
def usedRoutes (rs : List Route) : List Route :=
  rs.filter fun rt => tol < rt.qty

/-- Routes printed as unused (lines 255-257): quantity at most `1e-6`. -/
def unusedRoutes (rs : List Route) : List Route :=
  rs.filter fun rt => rt.qty ≤ tol

/-! ### Pipeline traces (source control flow, lines 55-89, 179-264, 388-399) -/

/-- Observable step of a task's pipeline, in source order: Task 2's balance
computation and print, a solver invocation, the success-path textual report
and chart, or the failure-path diagnostic print. -/
inductive Step where
  | balance (supplyTotal demandTotal : ℚ)
  | solverCall (task : Nat)
  | reportStep (task : Nat)
  | chart (task : Nat)
  | errorMsg (task : Nat) (msg : String)
deriving DecidableEq

/-- Trace of `solve_task1`: solver call, then on success the report and the
chart (lines 59-85), on failure only the diagnostic print (line 88). -/
def task1Trace (r : SolverResult) : List Step :=
  Step.solverCall 1 ::
    (if r.success then [Step.reportStep 1, Step.chart 1]
     else [Step.errorMsg 1 r.message])

/-- Trace of `solve_task2`: the balance computation and print (lines
179-182) precedes the solver call (line 212), then report and chart on
success (lines 217-260) or the diagnostic print on failure (line 263). -/
def task2Trace (r : SolverResult) : List Step :=
  Step.balance supply demand :: Step.solverCall 2 ::
    (if r.success then [Step.reportStep 2, Step.chart 2]
     else [Step.errorMsg 2 r.message])

/-- Trace of the main program (lines 388-399): Task 1 runs, then Task 2. -/
def mainTrace (r1 r2 : SolverResult) : List Step :=
  task1Trace r1 ++ task2Trace r2

/-! ### The memory constraint (source comment, lines 41-42) -/

/-- The Task 1 memory constraint `4*x1 + 6*x2 <= 480`, noted as redundant in
the source and left out of the solved system. -/
def memoryConstraint (x1 x2 : ℚ) : Prop := 4 * x1 + 6 * x2 ≤ 480

/-- A failed solver result (as `linprog` produces on an infeasible
instance), used to exercise the failure paths. -/
def failedResult : SolverResult :=
  { success := false, x := [], objVal := 0,
    message := "The problem is infeasible." }

/-! ### Claims -/

/-- Claim C1: for Task 1's fixed inputs the solve step returns the optimal
point `x1 = 30`, `x2 = 60` with maximum profit 960000 (no feasible point of
the solved system earns more), and both the CPU-time and the accumulator
constraints are binding there within absolute tolerance `1e-6` (the report
lists both as deficient). -/
theorem task1_returns_optimal_and_binding :
    solve_task1 linprog_task1_result = some linprog_task1_result ∧
    linprog_task1_result.x = [30, 60] ∧
    (task1Report 30 60 linprog_task1_result.objVal).profit = 960000 ∧
    feasible1 [30, 60] ∧
    (∀ y1 y2 : ℚ, feasible1 [y1, y2] → 8000 * y1 + 12000 * y2 ≤ 960000) ∧
    |(task1Report 30 60 linprog_task1_result.objVal).cpu_used - 240| ≤ tol ∧
    |(task1Report 30 60 linprog_task1_result.objVal).battery_used - 150| ≤ tol ∧
    (task1Report 30 60 linprog_task1_result.objVal).deficient =
      ["processor time", "batteries"] := by
  refine ⟨rfl, rfl, ?_, ?_, task1_profit_bound, ?_, ?_, ?_⟩
  · norm_num [task1Report, linprog_task1_result]
  · rw [feasible1_iff]; norm_num
  · norm_num [task1Report, linprog_task1_result, tol]
  · norm_num [task1Report, linprog_task1_result, tol]
  · norm_num [task1Report, linprog_task1_result, mkDeficient, tol]

/-- Witness for C1: the optimality bound evaluated at the concrete optimum. -/
theorem task1_returns_optimal_and_binding_witness :
    (8000 : ℚ) * 30 + 12000 * 60 ≤ 960000 :=
  task1_returns_optimal_and_binding.2.2.2.2.1 30 60
    task1_returns_optimal_and_binding.2.2.2.1

/-- Claim C3: for Task 2's fixed inputs, total supply equals total demand
(both 400) exactly, and the balance computation is the pipeline step that
precedes the solver invocation. -/
theorem task2_balance_checked_before_solve (r : SolverResult) :
    supply = 400 ∧ demand = 400 ∧ supply = demand ∧
    (task2Trace r).get? 0 = some (Step.balance supply demand) ∧
    (task2Trace r).get? 1 = some (Step.solverCall 2) := by
  refine ⟨by norm_num [supply], by norm_num [demand],
    by norm_num [supply, demand], rfl, rfl⟩

/-- Witness for C3: the balance step leads the Task 2 trace on a concrete
result. -/
theorem task2_balance_checked_before_solve_witness :
    (task2Trace optimal_task2_result).get? 0 =
      some (Step.balance supply demand) :=
  (task2_balance_checked_before_solve optimal_task2_result).2.2.2.1

/-- Claim C5: the memory constraint `4*x1 + 6*x2 <= 480` is redundant:
every non-negative point satisfying the CPU-time constraint satisfies it,
so the feasible set of the solved two-constraint system equals the feasible
set of the full three-constraint system. -/
theorem memory_constraint_redundant :
    (∀ x1 x2 : ℚ, 0 ≤ x1 → 0 ≤ x2 → 2 * x1 + 3 * x2 ≤ 240 →
      memoryConstraint x1 x2) ∧
    (∀ x1 x2 : ℚ, feasible1 [x1, x2] ↔
      feasible1 [x1, x2] ∧ memoryConstraint x1 x2) := by
  constructor
  · intro x1 x2 _ _ hcpu
    rw [memoryConstraint]
    linarith
  · intro x1 x2
    constructor
    · intro h
      refine ⟨h, ?_⟩
      rw [feasible1_iff] at h
      rw [memoryConstraint]
      linarith [h.2.2.1]
    · exact fun h => h.1

/-- Witness for C5: redundancy evaluated at the optimum (30, 60). -/
theorem memory_constraint_redundant_witness : memoryConstraint 30 60 :=
  memory_constraint_redundant.1 30 60 (by norm_num) (by norm_num) (by norm_num)

/-- Claim C6: Task 1 negates the profit vector `[8000, 12000]` to cast the
maximization as a minimization, and for every successful correct solver
result the recovered profit `-result.fun` equals `8000*x1 + 12000*x2` at
the returned point. -/
theorem task1_negation_roundtrip (r : SolverResult)
    (hc : CorrectFor c_task1 feasible1 r) (hs : r.success = true) :
    c_task1 = List.map Neg.neg [8000, 12000] ∧
    ∃ x1 x2 : ℚ, r.x = [x1, x2] ∧ -r.objVal = 8000 * x1 + 12000 * x2 := by
  obtain ⟨hfeas, hobj, -⟩ := hc hs
  constructor
  · simp [c_task1]
  · have hlen := hfeas.1
    rw [List.length_eq_two] at hlen
    obtain ⟨x1, x2, hx⟩ := hlen
    rw [hx] at hobj
    simp only [c_task1, dot] at hobj
    exact ⟨x1, x2, hx, by linarith⟩

/-- Witness for C6: the round trip at the spec-modelled Task 1 result. -/
theorem task1_negation_roundtrip_witness :
    c_task1 = List.map Neg.neg [8000, 12000] ∧
    ∃ x1 x2 : ℚ, linprog_task1_result.x = [x1, x2] ∧
      -linprog_task1_result.objVal = 8000 * x1 + 12000 * x2 :=
  task1_negation_roundtrip linprog_task1_result linprog_task1_result_correct rfl

/-- Claim C10: each solve step returns `None` exactly when the solver's
success flag is false, and otherwise returns the solver's result
unmodified. -/
theorem solve_returns_result_unmodified (r : SolverResult) :
    (solve_task1 r = none ↔ r.success = false) ∧
    (solve_task2 r = none ↔ r.success = false) ∧
    (r.success = true → solve_task1 r = some r ∧ solve_task2 r = some r) := by
  cases h : r.success <;> simp [solve_task1, solve_task2, h]

/-- Witness for C10: a failed result maps to `None`. -/
theorem solve_returns_result_unmodified_witness :
    solve_task1 failedResult = none :=
  (solve_returns_result_unmodified failedResult).1.mpr rfl

/-- Claim C2: for Task 2's fixed inputs, the shipment vector of every
successful correct solver result satisfies each equality constraint
(supplies 150 and 250 shipped out, demands 120, 180 and 100 met) with
every shipment quantity non-negative. -/
theorem task2_solution_satisfies_constraints (r : SolverResult)
    (hc : CorrectFor c_task2 feasible2 r) (hs : r.success = true) :
    ∃ a b c d e f : ℚ, r.x = [a, b, c, d, e, f] ∧
      a + b + c = 150 ∧ d + e + f = 250 ∧
      a + d = 120 ∧ b + e = 180 ∧ c + f = 100 ∧
      0 ≤ a ∧ 0 ≤ b ∧ 0 ≤ c ∧ 0 ≤ d ∧ 0 ≤ e ∧ 0 ≤ f := by
  have hfeas := (hc hs).1
  have hlen := hfeas.1
  rcases hx : r.x with - | ⟨a, - | ⟨b, - | ⟨c, - | ⟨d, - | ⟨e, - | ⟨f, - | ⟨g, t⟩⟩⟩⟩⟩⟩⟩ <;>
    rw [hx] at hlen hfeas <;> simp only [List.length] at hlen <;> try omega
  rw [feasible2_iff] at hfeas
  obtain ⟨⟨ha, hb, hc2, hd, he, hf⟩, h1, h2, h3, h4, h5⟩ := hfeas
  exact ⟨a, b, c, d, e, f, rfl, h1, h2, h3, h4, h5, ha, hb, hc2, hd, he, hf⟩

/-- Witness for C2: the constraints hold at a concrete correct result. -/
theorem task2_solution_satisfies_constraints_witness :
    ∃ a b c d e f : ℚ, optimal_task2_result.x = [a, b, c, d, e, f] ∧
      a + b + c = 150 ∧ d + e + f = 250 ∧
      a + d = 120 ∧ b + e = 180 ∧ c + f = 100 ∧
      0 ≤ a ∧ 0 ≤ b ∧ 0 ≤ c ∧ 0 ≤ d ∧ 0 ≤ e ∧ 0 ≤ f :=
  task2_solution_satisfies_constraints optimal_task2_result
    optimal_task2_result_correct rfl

/-- Claim C4: for Task 2's fixed inputs, the reported minimum total cost is
the value recomputed from the cost matrix and the returned shipments
(`8*x11 + 6*x12 + 10*x13 + 9*x21 + 7*x22 + 5*x23`), and that value is the
single deterministic optimum 2690 for every successful correct result. -/
theorem task2_cost_recomputed_deterministic (r : SolverResult)
    (hc : CorrectFor c_task2 feasible2 r) (hs : r.success = true) :
    (∃ a b c d e f : ℚ, r.x = [a, b, c, d, e, f] ∧
      r.objVal = 8 * a + 6 * b + 10 * c + 9 * d + 7 * e + 5 * f) ∧
    r.objVal = 2690 := by
  obtain ⟨hfeas, hobj, hopt⟩ := hc hs
  have hlen := hfeas.1
  rcases hx : r.x with - | ⟨a, - | ⟨b, - | ⟨c, - | ⟨d, - | ⟨e, - | ⟨f, - | ⟨g, t⟩⟩⟩⟩⟩⟩⟩ <;>
    rw [hx] at hlen hfeas hobj <;> simp only [List.length] at hlen <;> try omega
  simp only [c_task2, dot] at hobj
  have hlow := task2_cost_bound a b c d e f hfeas
  have hfeas0 : feasible2 [120, 30, 0, 0, 150, 100] := by
    rw [feasible2_iff]; norm_num
  have hup := hopt [120, 30, 0, 0, 150, 100] hfeas0
  simp only [c_task2, dot] at hup
  constructor
  · exact ⟨a, b, c, d, e, f, rfl, by linarith⟩
  · apply le_antisymm
    · linarith
    · linarith

/-- Witness for C4: the determinism of the cost at a concrete correct
result. -/
theorem task2_cost_recomputed_deterministic_witness :
    optimal_task2_result.objVal = 2690 :=
  (task2_cost_recomputed_deterministic optimal_task2_result
    optimal_task2_result_correct rfl).2

/-- Claim C7: both classification steps use the absolute tolerance `1e-6`:
a Task 2 route with quantity below the tolerance is listed as unused and one
above it as used, and a Task 1 constraint whose usage is within the
tolerance of its bound is listed as deficient (binding), otherwise not. -/
theorem classification_uses_tolerance (rs : List Route) (rt : Route)
    (cpu_used battery_used : ℚ) (hm : rt ∈ rs) :
    (rt.qty < tol → rt ∈ unusedRoutes rs ∧ rt ∉ usedRoutes rs) ∧
    (tol < rt.qty → rt ∈ usedRoutes rs ∧ rt ∉ unusedRoutes rs) ∧
    ("processor time" ∈ mkDeficient cpu_used battery_used ↔
      |cpu_used - 240| < tol) ∧
    ("batteries" ∈ mkDeficient cpu_used battery_used ↔
      |battery_used - 150| < tol) := by
  refine ⟨?_, ?_, ?_, ?_⟩
  · intro hq
    constructor
    · rw [unusedRoutes, List.mem_filter]
      exact ⟨hm, by simp; linarith⟩
    · rw [usedRoutes, List.mem_filter]
      rintro ⟨-, hq2⟩
      simp at hq2
      linarith
  · intro hq
    constructor
    · rw [usedRoutes, List.mem_filter]
      exact ⟨hm, by simpa using hq⟩
    · rw [unusedRoutes, List.mem_filter]
      rintro ⟨-, hq2⟩
      simp at hq2
      linarith
  · by_cases h1 : |cpu_used - 240| < tol <;>
      by_cases h2 : |battery_used - 150| < tol <;>
      simp [mkDeficient, h1, h2]
  · by_cases h1 : |cpu_used - 240| < tol <;>
      by_cases h2 : |battery_used - 150| < tol <;>
      simp [mkDeficient, h1, h2]

/-- Witness for C7: classification of a concrete used route and of the
binding CPU constraint at usage 240. -/
theorem classification_uses_tolerance_witness :
    (⟨"W2 -> Gamma", 100, 5⟩ : Route) ∈
      usedRoutes (routes 120 30 0 0 150 100) ∧
    "processor time" ∈ mkDeficient 240 150 := by
  have h := classification_uses_tolerance (routes 120 30 0 0 150 100)
    ⟨"W2 -> Gamma", 100, 5⟩ 240 150 (by simp [routes])
  refine ⟨(h.2.1 (by norm_num [tol])).1, h.2.2.1.mpr (by norm_num [tol])⟩

/-- Claim C8: when the solver reports failure for a task, that task's solve
step returns `None`, its trace records the diagnostic message and contains
neither the report nor the chart step, and the other task's solver call is
still present in the main trace. -/
theorem solver_failure_is_terminal_per_task (r1 r2 : SolverResult) :
    (r1.success = false →
      solve_task1 r1 = none ∧
      Step.errorMsg 1 r1.message ∈ task1Trace r1 ∧
      Step.chart 1 ∉ task1Trace r1 ∧
      Step.reportStep 1 ∉ task1Trace r1 ∧
      Step.solverCall 2 ∈ mainTrace r1 r2) ∧
    (r2.success = false →
      solve_task2 r2 = none ∧
      Step.errorMsg 2 r2.message ∈ task2Trace r2 ∧
      Step.chart 2 ∉ task2Trace r2 ∧
      Step.reportStep 2 ∉ task2Trace r2 ∧
      Step.solverCall 1 ∈ mainTrace r1 r2) := by
  constructor
  · intro h1
    refine ⟨by simp [solve_task1, h1], ?_, ?_, ?_, ?_⟩ <;>
      simp [task1Trace, mainTrace, task2Trace, h1]
  · intro h2
    refine ⟨by simp [solve_task2, h2], ?_, ?_, ?_, ?_⟩ <;>
      simp [task1Trace, mainTrace, task2Trace, h2]

/-- Witness for C8: the failure path on a concrete failed Task 1 result. -/
theorem solver_failure_is_terminal_per_task_witness :
    solve_task1 failedResult = none ∧
    Step.errorMsg 1 failedResult.message ∈ task1Trace failedResult ∧
    Step.chart 1 ∉ task1Trace failedResult ∧
    Step.reportStep 1 ∉ task1Trace failedResult ∧
    Step.solverCall 2 ∈ mainTrace failedResult optimal_task2_result :=
  (solver_failure_is_terminal_per_task failedResult optimal_task2_result).1 rfl

/-- Claim C9: the four hardcoded chart vertices (0,0), (0,75), (30,60),
(120,0) are exactly the extreme points of Task 1's feasible region: each is
feasible and lies on two distinct constraint boundaries, and every feasible
point lying on two distinct constraint boundaries is one of them. -/
theorem chart_vertices_are_feasible_extreme_points :
    (∀ p ∈ vertices, feasiblePt p ∧
      ∃ i j : Fin 4, i ≠ j ∧ boundaryHolds i p ∧ boundaryHolds j p) ∧
    (∀ p : ℚ × ℚ, feasiblePt p →
      (∃ i j : Fin 4, i ≠ j ∧ boundaryHolds i p ∧ boundaryHolds j p) →
      p ∈ vertices) := by
  constructor
  · intro p hp
    simp only [vertices, List.mem_cons, List.not_mem_nil, or_false] at hp
    rcases hp with rfl | rfl | rfl | rfl
    · exact ⟨by rw [feasiblePt, feasible1_iff]; norm_num,
        2, 3, by decide, by norm_num [boundaryHolds], by norm_num [boundaryHolds]⟩
    · exact ⟨by rw [feasiblePt, feasible1_iff]; norm_num,
        1, 2, by decide, by norm_num [boundaryHolds], by norm_num [boundaryHolds]⟩
    · exact ⟨by rw [feasiblePt, feasible1_iff]; norm_num,
        0, 1, by decide, by norm_num [boundaryHolds], by norm_num [boundaryHolds]⟩
    · exact ⟨by rw [feasiblePt, feasible1_iff]; norm_num,
        0, 3, by decide, by norm_num [boundaryHolds], by norm_num [boundaryHolds]⟩
  · rintro ⟨x1, x2⟩ hf ⟨i, j, hne, hi, hj⟩
    rw [feasiblePt, feasible1_iff] at hf
    obtain ⟨hx1, hx2, hcpu, hbat⟩ := hf
    simp only [vertices, List.mem_cons, List.not_mem_nil, or_false,
      Prod.mk.injEq]
    fin_cases i <;> fin_cases j <;>
      simp only [boundaryHolds] at hi hj <;>
      first
        | exact absurd rfl hne
        | exact Or.inl ⟨by linarith, by linarith⟩
        | exact Or.inr (Or.inl ⟨by linarith, by linarith⟩)
        | exact Or.inr (Or.inr (Or.inl ⟨by linarith, by linarith⟩))
        | exact Or.inr (Or.inr (Or.inr ⟨by linarith, by linarith⟩))

/-- Witness for C9: the optimum (30, 60) is feasible, lies on both resource
boundaries, and is recognized as a chart vertex. -/
theorem chart_vertices_witness : ((30 : ℚ), (60 : ℚ)) ∈ vertices :=
  chart_vertices_are_feasible_extreme_points.2 (30, 60)
    (by rw [feasiblePt, feasible1_iff]; norm_num)
    ⟨0, 1, by decide, by norm_num [boundaryHolds], by norm_num [boundaryHolds]⟩

end ProgLab
